import Mathlib

/-!
Verification development for the sega-genesis-pal header `src/sgp.h`.

The file shallowly embeds the tile-collision engine
(`SGP_PlayerLevelCollision`, src/sgp.h lines 462-609) and the camera
routines (`SGP_CameraInit`, `SGP_CameraFollowTarget`,
`SGP_UpdateCameraPosition`, src/sgp.h lines 296-416) as pure Lean
functions over explicit state, and proves properties of them.

Machine integers are modelled as `Int`/`Nat` with explicit wrapping where
the C code stores into a fixed-width variable.  The per-entity static
arrays (`prev_collide_flags`, `prev_player_x`, `prev_player_y`, each of
size `SGP_MAX_ENTITIES = 2`) become a `CollisionCache` record threaded
through the collision function, which also returns the list of offsets
into `collision_data` that the call read, in source order.
-/

/-- Wrap an integer into the signed 16-bit range, modelling a store into a
C `s16` variable (two-complement truncation). -/
def wrap16s (v : Int) : Int := (v + 32768) % 65536 - 32768

/-- Truncate an integer to the unsigned 16-bit range, modelling a store
into a C `u16` variable. -/
def store16 (v : Int) : Nat := (v % 65536).toNat

/-- Truncate an integer to the unsigned 32-bit range, modelling a store
into a C `u32` variable (also the value a `u32 != s16` comparison sees
after the usual arithmetic conversions). -/
def toU32 (v : Int) : Nat := (v % 4294967296).toNat

/-- Arithmetic right shift by `PIXELS_TO_TILE_SHIFT = 4`, i.e. floor
division by 16, which is how the m68k compiler realises `>> 4` on a
signed 16-bit value. -/
def tileShift (v : Int) : Int := Int.fdiv v 16

/-- Constant `SOLID_TILE` from src/sgp.h line 53. -/
def SOLID_TILE : Nat := 1

/-- Constant `COLLISION_TILE_SIZE_MASK` from src/sgp.h line 61. -/
def COLLISION_TILE_SIZE_MASK : Nat := 15

/-- Constant `SGP_MAX_ENTITIES` from src/sgp.h line 51. -/
abbrev SGP_MAX_ENTITIES : Nat := 2

/-- Constant `SGP_DIR_UP` from the `SGPMovementDirection` enum, src/sgp.h line 138. -/
def SGP_DIR_UP : Nat := 1

/-- Constant `SGP_DIR_DOWN`, src/sgp.h line 139. -/
def SGP_DIR_DOWN : Nat := 2

/-- Constant `SGP_DIR_LEFT`, src/sgp.h line 140. -/
def SGP_DIR_LEFT : Nat := 4

/-- Constant `SGP_DIR_RIGHT`, src/sgp.h line 141. -/
def SGP_DIR_RIGHT : Nat := 8

/-- Fixed Genesis screen width in pixels (external constant of SGDK). -/
def screenWidth : Nat := 320

/-- Fixed Genesis screen height in pixels (external constant of SGDK). -/
def screenHeight : Nat := 224

/-- Value of the C guard expression `v & COLLISION_TILE_SIZE_MASK != 0`
as it actually parses: `!=` binds tighter than `&`, so the expression is
`v & (15 != 0)`, i.e. `v & 1`, the low bit of the two-complement
representation of `v` (for any `Int`, that low bit is `v % 2` with the
euclidean remainder).  The guards at src/sgp.h lines 494, 520, 558 and
585 all have this shape. -/
def alignGuardBit (v : Int) : Int := v % 2

/-- Structure `SGPLevelCollisionData` from src/sgp.h lines 144-148.  The `u16
length` field is used by `SGP_PlayerLevelCollision` as the row stride.
`collision_data` is modelled as the byte the CPU reads at any signed
offset from the array base, so out-of-array accesses are representable;
offsets inside a concrete grid return that grid entry. -/
structure SGPLevelCollisionData where
  length : Nat
  collision_data : Int → Nat

/-- The four bits of a `prev_collide_flags` entry: `COLLIDE_DOWN = 1`,
`COLLIDE_UP = 2`, `COLLIDE_LEFT = 4`, `COLLIDE_RIGHT = 8`
(src/sgp.h lines 39-42). -/
structure CollideFlags where
  down : Bool
  up : Bool
  left : Bool
  right : Bool

/-- The three static per-entity arrays inside `SGP_PlayerLevelCollision`
(src/sgp.h lines 482-484): cached flags and the cached position, the
latter stored in `u16` variables even though the position arguments are
`s16`. -/
structure CollisionCache where
  prev_collide_flags : Fin SGP_MAX_ENTITIES → CollideFlags
  prev_player_x : Fin SGP_MAX_ENTITIES → Nat
  prev_player_y : Fin SGP_MAX_ENTITIES → Nat

/-- Zero-initialised static arrays (`= {0}` initialisers). -/
def initialCache : CollisionCache :=
  ⟨fun _ => ⟨false, false, false, false⟩, fun _ => 0, fun _ => 0⟩

/-- Result of one collision call: the returned boolean, the cache state
after the call, and the offsets read from `collision_data`, in source
order. -/
structure CollisionOutcome where
  result : Bool
  cache : CollisionCache
  reads : List Int

/-- Operation `SET_INACTIVE(prev_collide_flags[i], COLLIDE_DOWN)`. -/
def clearDown (st : CollisionCache) (i : Fin SGP_MAX_ENTITIES) : CollisionCache :=
  { st with prev_collide_flags :=
      Function.update st.prev_collide_flags i ({ st.prev_collide_flags i with down := false }) }

/-- Operation `SET_INACTIVE(prev_collide_flags[i], COLLIDE_UP)`. -/
def clearUp (st : CollisionCache) (i : Fin SGP_MAX_ENTITIES) : CollisionCache :=
  { st with prev_collide_flags :=
      Function.update st.prev_collide_flags i ({ st.prev_collide_flags i with up := false }) }

/-- Operation `SET_INACTIVE(prev_collide_flags[i], COLLIDE_LEFT)`. -/
def clearLeft (st : CollisionCache) (i : Fin SGP_MAX_ENTITIES) : CollisionCache :=
  { st with prev_collide_flags :=
      Function.update st.prev_collide_flags i ({ st.prev_collide_flags i with left := false }) }

/-- Operation `SET_INACTIVE(prev_collide_flags[i], COLLIDE_RIGHT)`. -/
def clearRight (st : CollisionCache) (i : Fin SGP_MAX_ENTITIES) : CollisionCache :=
  { st with prev_collide_flags :=
      Function.update st.prev_collide_flags i ({ st.prev_collide_flags i with right := false }) }

/-- Operation `SET_INACTIVE(prev_collide_flags[i], COLLIDE_DOWN | COLLIDE_UP)`
(src/sgp.h line 548, the fall-through taken by every non-vertical query). -/
def clearVert (st : CollisionCache) (i : Fin SGP_MAX_ENTITIES) : CollisionCache :=
  { st with prev_collide_flags :=
      Function.update st.prev_collide_flags i ({ st.prev_collide_flags i with down := false, up := false }) }

/-- Operation `SET_INACTIVE(prev_collide_flags[i], COLLIDE_LEFT | COLLIDE_RIGHT)`
(src/sgp.h line 606). -/
def clearHoriz (st : CollisionCache) (i : Fin SGP_MAX_ENTITIES) : CollisionCache :=
  { st with prev_collide_flags :=
      Function.update st.prev_collide_flags i ({ st.prev_collide_flags i with left := false, right := false }) }

/-- The cache store performed on the tile-reading path of every branch:
`prev_player_x[i] = player_x; prev_player_y[i] = player_y;` (u16 stores
of s16 values) together with the final flag word `f`. -/
def writeBack (st : CollisionCache) (i : Fin SGP_MAX_ENTITIES) (x y : Int)
    (f : CollideFlags) : CollisionCache :=
  { prev_collide_flags := Function.update st.prev_collide_flags i f,
    prev_player_x := Function.update st.prev_player_x i (store16 x),
    prev_player_y := Function.update st.prev_player_y i (store16 y) }

/-- Cache short-circuit condition of the UP branch (src/sgp.h line 491):
`prev_player_y[i] == player_y && prev_player_x[i] == player_x &&
FLAG_IS_ACTIVE(prev_collide_flags[i], COLLIDE_UP)`.  The stored `u16`
values and the `s16` arguments are both promoted to `int`, hence the
casts to `Int`. -/
def upCacheHit (st : CollisionCache) (i : Fin SGP_MAX_ENTITIES) (x y : Int) : Prop :=
  (st.prev_player_y i : Int) = y ∧ (st.prev_player_x i : Int) = x ∧
    (st.prev_collide_flags i).up = true

/-- Cache short-circuit condition of the DOWN branch (src/sgp.h line 524):
only `prev_player_y` is compared, `prev_player_x` is not consulted. -/
def downCacheHit (st : CollisionCache) (i : Fin SGP_MAX_ENTITIES) (y : Int) : Prop :=
  (st.prev_player_y i : Int) = y ∧ (st.prev_collide_flags i).down = true

/-- Cache short-circuit condition of the LEFT branch (src/sgp.h line 556). -/
def leftCacheHit (st : CollisionCache) (i : Fin SGP_MAX_ENTITIES) (x y : Int) : Prop :=
  (st.prev_player_x i : Int) = x ∧ (st.prev_player_y i : Int) = y ∧
    (st.prev_collide_flags i).left = true

/-- Cache short-circuit condition of the RIGHT branch (src/sgp.h line 583). -/
def rightCacheHit (st : CollisionCache) (i : Fin SGP_MAX_ENTITIES) (x y : Int) : Prop :=
  (st.prev_player_x i : Int) = x ∧ (st.prev_player_y i : Int) = y ∧
    (st.prev_collide_flags i).right = true

instance (st : CollisionCache) (i : Fin SGP_MAX_ENTITIES) (x y : Int) :
    Decidable (upCacheHit st i x y) := by
  unfold upCacheHit; exact inferInstance

instance (st : CollisionCache) (i : Fin SGP_MAX_ENTITIES) (y : Int) :
    Decidable (downCacheHit st i y) := by
  unfold downCacheHit; exact inferInstance

instance (st : CollisionCache) (i : Fin SGP_MAX_ENTITIES) (x y : Int) :
    Decidable (leftCacheHit st i x y) := by
  unfold leftCacheHit; exact inferInstance

instance (st : CollisionCache) (i : Fin SGP_MAX_ENTITIES) (x y : Int) :
    Decidable (rightCacheHit st i x y) := by
  unfold rightCacheHit; exact inferInstance

/-- Offsets read by the UP branch (src/sgp.h lines 497-504):
`tile_y_top = (player_y - 1) >> 4`, `tile_x_left = (player_x + 1) >> 4`,
`tile_x_right = (player_x + player_width - 1) >> 4`, linear index
`tile_x + tile_y_top * length` stored into an `s16`. -/
def upProbes (x y : Int) (w : Nat) (len : Nat) : List Int :=
  [ wrap16s (tileShift (x + 1) + tileShift (y - 1) * len),
    wrap16s (tileShift (x + (w : Int) - 1) + tileShift (y - 1) * len) ]

/-- Offsets read by the DOWN branch (src/sgp.h lines 527-534):
`tile_y_bottom = (player_y + player_height) >> 4`, columns as in UP. -/
def downProbes (x y : Int) (w h : Nat) (len : Nat) : List Int :=
  [ wrap16s (tileShift (x + 1) + tileShift (y + (h : Int)) * len),
    wrap16s (tileShift (x + (w : Int) - 1) + tileShift (y + (h : Int)) * len) ]

/-- Offsets read by the LEFT branch (src/sgp.h lines 561-566):
`tile_x_left = (player_x - 1) >> 4`, rows `tile_y_top = player_y >> 4`
and `tile_y_bottom = (player_y + player_height - 1) >> 4` from the
function prologue (lines 468-469). -/
def leftProbes (x y : Int) (h : Nat) (len : Nat) : List Int :=
  [ wrap16s (tileShift (x - 1) + tileShift y * len),
    wrap16s (tileShift (x - 1) + tileShift (y + (h : Int) - 1) * len) ]

/-- Offsets read by the RIGHT branch (src/sgp.h lines 588-592):
`tile_x_right = (player_x + player_width) >> 4`, rows as in LEFT. -/
def rightProbes (x y : Int) (w h : Nat) (len : Nat) : List Int :=
  [ wrap16s (tileShift (x + (w : Int)) + tileShift y * len),
    wrap16s (tileShift (x + (w : Int)) + tileShift (y + (h : Int) - 1) * len) ]

/-- Test `collision_data[i] == SOLID_TILE`. -/
def solidAt (lvl : SGPLevelCollisionData) (i : Int) : Bool :=
  lvl.collision_data i == SOLID_TILE

/-- Disjunction `type_a == SOLID_TILE || type_b == SOLID_TILE` over the two probed
offsets. -/
def probesHit (lvl : SGPLevelCollisionData) (ps : List Int) : Bool :=
  ps.any (solidAt lvl)

/-- UP branch of `SGP_PlayerLevelCollision` (src/sgp.h lines 486-515):
clear `COLLIDE_DOWN`, cache short-circuit, alignment guard
(`player_y & COLLISION_TILE_SIZE_MASK != 0`, i.e. the low bit of
`player_y`), then the two tile reads and the cache write-back. -/
def upQuery (st : CollisionCache) (player_index : Fin SGP_MAX_ENTITIES)
    (player_x player_y : Int) (player_width player_height : Nat)
    (level : SGPLevelCollisionData) : CollisionOutcome :=
  let st1 := clearDown st player_index
  if upCacheHit st1 player_index player_x player_y then
    ⟨true, st1, []⟩
  else if alignGuardBit player_y ≠ 0 then
    ⟨false, st1, []⟩
  else
    let ps := upProbes player_x player_y player_width level.length
    let hit := probesHit level ps
    ⟨hit,
     writeBack st1 player_index player_x player_y
       { st1.prev_collide_flags player_index with up := hit },
     ps⟩

/-- DOWN branch (src/sgp.h lines 516-545): clear `COLLIDE_UP`, alignment
guard on `player_y + player_height` BEFORE the cache check, cache
short-circuit on `prev_player_y` alone, then tile reads and write-back. -/
def downQuery (st : CollisionCache) (player_index : Fin SGP_MAX_ENTITIES)
    (player_x player_y : Int) (player_width player_height : Nat)
    (level : SGPLevelCollisionData) : CollisionOutcome :=
  let st1 := clearUp st player_index
  if alignGuardBit (player_y + (player_height : Int)) ≠ 0 then
    ⟨false, st1, []⟩
  else if downCacheHit st1 player_index player_y then
    ⟨true, st1, []⟩
  else
    let ps := downProbes player_x player_y player_width player_height level.length
    let hit := probesHit level ps
    ⟨hit,
     writeBack st1 player_index player_x player_y
       { st1.prev_collide_flags player_index with down := hit },
     ps⟩

/-- LEFT branch (src/sgp.h lines 551-577), entered after the fall-through
`SET_INACTIVE(..., COLLIDE_DOWN | COLLIDE_UP)` which the dispatcher
applies: clear `COLLIDE_RIGHT`, cache short-circuit, alignment guard on
`player_x`, tile reads, write-back. -/
def leftQuery (st : CollisionCache) (player_index : Fin SGP_MAX_ENTITIES)
    (player_x player_y : Int) (player_width player_height : Nat)
    (level : SGPLevelCollisionData) : CollisionOutcome :=
  let st1 := clearRight st player_index
  if leftCacheHit st1 player_index player_x player_y then
    ⟨true, st1, []⟩
  else if alignGuardBit player_x ≠ 0 then
    ⟨false, st1, []⟩
  else
    let ps := leftProbes player_x player_y player_height level.length
    let hit := probesHit level ps
    ⟨hit,
     writeBack st1 player_index player_x player_y
       { st1.prev_collide_flags player_index with left := hit },
     ps⟩

/-- RIGHT branch (src/sgp.h lines 578-603), entered after the same
fall-through clear of the vertical flags: clear `COLLIDE_LEFT`, cache
short-circuit, alignment guard on `player_x + player_width`, tile reads,
write-back. -/
def rightQuery (st : CollisionCache) (player_index : Fin SGP_MAX_ENTITIES)
    (player_x player_y : Int) (player_width player_height : Nat)
    (level : SGPLevelCollisionData) : CollisionOutcome :=
  let st1 := clearLeft st player_index
  if rightCacheHit st1 player_index player_x player_y then
    ⟨true, st1, []⟩
  else if alignGuardBit (player_x + (player_width : Int)) ≠ 0 then
    ⟨false, st1, []⟩
  else
    let ps := rightProbes player_x player_y player_width player_height level.length
    let hit := probesHit level ps
    ⟨hit,
     writeBack st1 player_index player_x player_y
       { st1.prev_collide_flags player_index with right := hit },
     ps⟩

/-- Function `SGP_PlayerLevelCollision` (src/sgp.h lines 462-609).  `direction` is
the `SGPMovementDirection` value, tested bit by bit exactly as the C
if/else chain does; a query with neither vertical bit falls through the
`else` that clears both vertical flags before the horizontal chain, and
a query with no direction bit at all additionally clears both horizontal
flags and returns false (line 608). -/
def SGP_PlayerLevelCollision (st : CollisionCache) (player_index : Fin SGP_MAX_ENTITIES)
    (player_x player_y : Int) (player_width player_height : Nat)
    (level : SGPLevelCollisionData) (direction : Nat) : CollisionOutcome :=
  if direction &&& SGP_DIR_UP ≠ 0 then
    upQuery st player_index player_x player_y player_width player_height level
  else if direction &&& SGP_DIR_DOWN ≠ 0 then
    downQuery st player_index player_x player_y player_width player_height level
  else
    let st1 := clearVert st player_index
    if direction &&& SGP_DIR_LEFT ≠ 0 then
      leftQuery st1 player_index player_x player_y player_width player_height level
    else if direction &&& SGP_DIR_RIGHT ≠ 0 then
      rightQuery st1 player_index player_x player_y player_width player_height level
    else
      ⟨false, clearHoriz st1 player_index, []⟩

/-- The 8x8 bordered test grid of src/tests/collision_test.c
(rows 0 and 7 and columns 0 and 7 solid, an inner room structure inside). -/
def testLevelData : List Nat :=
  [1, 1, 1, 1, 1, 1, 1, 1,
   1, 0, 0, 0, 0, 0, 0, 1,
   1, 0, 1, 1, 1, 1, 0, 1,
   1, 0, 1, 0, 0, 1, 0, 1,
   1, 0, 1, 0, 0, 1, 0, 1,
   1, 0, 1, 1, 1, 1, 0, 1,
   1, 0, 0, 0, 0, 0, 0, 1,
   1, 1, 1, 1, 1, 1, 1, 1]

/-- The test grid as a `SGPLevelCollisionData` with row stride 8; memory
outside the 64-byte array is taken to hold zero bytes (any out-of-array
read is undefined behaviour in the C program, so the concrete value is a
modelling choice used only to evaluate closed examples). -/
def testLevel : SGPLevelCollisionData :=
  ⟨8, fun i => if 0 ≤ i ∧ i < 64 then testLevelData.getD i.toNat 0 else 0⟩

/-- Probe offsets as claim C2 describes them: `tile_left = floor(x/16)`,
`tile_right = floor((x+width-1)/16)`, `tile_top = floor(y/16)`,
`tile_bottom = floor((y+height-1)/16)`, LEFT consulting
`(tile_left, tile_top)` and `(tile_left, tile_bottom)`, RIGHT using
`tile_right`, UP consulting `(tile_left, tile_top)` and
`(tile_right, tile_top)`, DOWN using `tile_bottom`, with no look-ahead
offset and no inset.  Written from the claim wording, for comparison
with the source embedding. -/
def claimC2probes (direction : Nat) (x y : Int) (w h : Nat) (len : Nat) : List Int :=
  let tl := Int.fdiv x 16
  let tr := Int.fdiv (x + (w : Int) - 1) 16
  let tt := Int.fdiv y 16
  let tb := Int.fdiv (y + (h : Int) - 1) 16
  if direction = SGP_DIR_LEFT then [tl + tt * len, tl + tb * len]
  else if direction = SGP_DIR_RIGHT then [tr + tt * len, tr + tb * len]
  else if direction = SGP_DIR_UP then [tl + tt * len, tr + tt * len]
  else if direction = SGP_DIR_DOWN then [tl + tb * len, tr + tb * len]
  else []

/-- The `Map` handle of SGDK as far as the camera uses it: metatile
width and height (`map->w`, `map->h`). -/
structure SGDKMap where
  w : Nat
  h : Nat

/-- Function `SGP_MetatilesToPixels` (src/sgp.h line 65): `u16 x << 7`, truncated
back to `u16`. -/
def SGP_MetatilesToPixels (x : Nat) : Nat := (x * 128) % 65536

/-- The camera fields that `SGP_CameraInit`, `SGP_CameraFollowTarget` and
`SGP_UpdateCameraPosition` touch (src/sgp.h lines 94-111); the fixed
point offsets, sprite handle and `max_vertical_scroll` are carried by
the surrounding struct but not read by the modelled paths. -/
structure SGPCameraState where
  active : Bool
  current_x : Nat
  current_y : Nat
  map_width : Nat
  map_height : Nat
  has_map : Bool

/-- Side effects the camera routines emit to SGDK. -/
inductive SGPEffect where
  | scrollTo (x y : Nat)
  | hScroll (v : Int)
  | vScroll (v : Int)
  | spritePos (x y : Int)

/-- Function `SGP_CameraInit` (src/sgp.h lines 296-303).  The C code stores the
pointer and then reads `map->h` and `map->w` before any null test; a
null argument therefore dereferences a null pointer, modelled as `none`
(no defined result).  For a non-null map it computes the pixel
dimensions, activates the camera, leaves `current_x`/`current_y` alone
and returns `sgp.camera.map != NULL`, i.e. 1. -/
def SGP_CameraInit (map : Option SGDKMap) (s : SGPCameraState) :
    Option (SGPCameraState × Nat) :=
  match map with
  | none => none
  | some m =>
      some ({ s with has_map := true,
                     map_height := SGP_MetatilesToPixels m.h,
                     map_width := SGP_MetatilesToPixels m.w,
                     active := true }, 1)

/-- Function `SGP_UpdateCameraPosition` (src/sgp.h lines 407-416): a no-op while
the camera is active; otherwise stores the position and emits
`MAP_scrollTo`. -/
def SGP_UpdateCameraPosition (s : SGPCameraState) (x y : Nat) :
    SGPCameraState × List SGPEffect :=
  if s.active then (s, [])
  else ({ s with current_x := x, current_y := y }, [SGPEffect.scrollTo x y])

/-- Function `SGP_CameraFollowTarget` (src/sgp.h lines 331-378).  `target_x` and
`target_y` are the integer world coordinates `F32_toInt` yields from the
target pointers; the C code truncates them into `u16` locals, computes
the `s16` candidate `target - screenDim/2 + spriteDim/2` per axis,
clamps with two successive ifs against 0 and `mapDim - screenDim`
(the clamp bound itself stored through the `s16` variable), updates
`current_x`/`current_y` and emits the scroll effects only when the
clamped position differs from the current one (compared after the
usual conversions to `u32`), and finally positions the sprite if one was
supplied. -/
def SGP_CameraFollowTarget (s : SGPCameraState) (target_x target_y : Int)
    (sprite_width sprite_height : Nat) (hasSprite : Bool) :
    SGPCameraState × List SGPEffect :=
  if s.active = false then (s, [])
  else
    let target_x_map : Int := target_x % 65536
    let target_y_map : Int := target_y % 65536
    let ncx0 := wrap16s (target_x_map - (screenWidth / 2 : Nat) + ((sprite_width / 2 : Nat) : Int))
    let ncy0 := wrap16s (target_y_map - (screenHeight / 2 : Nat) + ((sprite_height / 2 : Nat) : Int))
    let ncx1 := if ncx0 < 0 then 0 else ncx0
    let ncx := if ncx1 > (s.map_width : Int) - screenWidth
      then wrap16s ((s.map_width : Int) - screenWidth) else ncx1
    let ncy1 := if ncy0 < 0 then 0 else ncy0
    let ncy := if ncy1 > (s.map_height : Int) - screenHeight
      then wrap16s ((s.map_height : Int) - screenHeight) else ncy1
    let moved := s.current_x ≠ toU32 ncx ∨ s.current_y ≠ toU32 ncy
    let s2 := if moved then { s with current_x := toU32 ncx, current_y := toU32 ncy } else s
    let bg_hscroll := wrap16s (Int.fdiv (0 - ncx) 8)
    let bg_vscroll0 := wrap16s (Int.fdiv ncy 8)
    let bg_vscroll := if bg_vscroll0 > 32 then 32 else bg_vscroll0
    let moveEffects := if moved then
        [SGPEffect.scrollTo (toU32 ncx) (toU32 ncy),
         SGPEffect.hScroll bg_hscroll, SGPEffect.vScroll bg_vscroll]
      else []
    let sprEffects := if hasSprite then
        [SGPEffect.spritePos (wrap16s (target_x_map - ncx)) (wrap16s (target_y_map - ncy))]
      else []
    (s2, moveEffects ++ sprEffects)

/-! Helper lemmas about the machine-integer helpers and the cache
operations. -/

theorem wrap16s_self (v : Int) (h1 : -32768 ≤ v) (h2 : v < 32768) : wrap16s v = v := by
  unfold wrap16s; omega

theorem store16_coe (v : Int) (h1 : 0 ≤ v) (h2 : v < 65536) : (store16 v : Int) = v := by
  unfold store16; omega

theorem store16_nonneg (v : Int) : 0 ≤ (store16 v : Int) := by
  unfold store16; omega

theorem toU32_toNat (v : Int) (h1 : 0 ≤ v) (h2 : v < 4294967296) : toU32 v = v.toNat := by
  unfold toU32; omega

theorem clearDown_x (st : CollisionCache) (i : Fin SGP_MAX_ENTITIES) :
    (clearDown st i).prev_player_x = st.prev_player_x := rfl

theorem clearDown_y (st : CollisionCache) (i : Fin SGP_MAX_ENTITIES) :
    (clearDown st i).prev_player_y = st.prev_player_y := rfl

theorem clearDown_f (st : CollisionCache) (i : Fin SGP_MAX_ENTITIES) :
    (clearDown st i).prev_collide_flags i = { st.prev_collide_flags i with down := false } := by
  simp [clearDown]

theorem clearUp_x (st : CollisionCache) (i : Fin SGP_MAX_ENTITIES) :
    (clearUp st i).prev_player_x = st.prev_player_x := rfl

theorem clearUp_y (st : CollisionCache) (i : Fin SGP_MAX_ENTITIES) :
    (clearUp st i).prev_player_y = st.prev_player_y := rfl

theorem clearUp_f (st : CollisionCache) (i : Fin SGP_MAX_ENTITIES) :
    (clearUp st i).prev_collide_flags i = { st.prev_collide_flags i with up := false } := by
  simp [clearUp]

theorem clearLeft_x (st : CollisionCache) (i : Fin SGP_MAX_ENTITIES) :
    (clearLeft st i).prev_player_x = st.prev_player_x := rfl

theorem clearLeft_y (st : CollisionCache) (i : Fin SGP_MAX_ENTITIES) :
    (clearLeft st i).prev_player_y = st.prev_player_y := rfl

theorem clearLeft_f (st : CollisionCache) (i : Fin SGP_MAX_ENTITIES) :
    (clearLeft st i).prev_collide_flags i = { st.prev_collide_flags i with left := false } := by
  simp [clearLeft]

theorem clearRight_x (st : CollisionCache) (i : Fin SGP_MAX_ENTITIES) :
    (clearRight st i).prev_player_x = st.prev_player_x := rfl

theorem clearRight_y (st : CollisionCache) (i : Fin SGP_MAX_ENTITIES) :
    (clearRight st i).prev_player_y = st.prev_player_y := rfl

theorem clearRight_f (st : CollisionCache) (i : Fin SGP_MAX_ENTITIES) :
    (clearRight st i).prev_collide_flags i = { st.prev_collide_flags i with right := false } := by
  simp [clearRight]

theorem clearVert_x (st : CollisionCache) (i : Fin SGP_MAX_ENTITIES) :
    (clearVert st i).prev_player_x = st.prev_player_x := rfl

theorem clearVert_y (st : CollisionCache) (i : Fin SGP_MAX_ENTITIES) :
    (clearVert st i).prev_player_y = st.prev_player_y := rfl

theorem clearVert_f (st : CollisionCache) (i : Fin SGP_MAX_ENTITIES) :
    (clearVert st i).prev_collide_flags i =
      { st.prev_collide_flags i with down := false, up := false } := by
  simp [clearVert]

theorem writeBack_x (st : CollisionCache) (i : Fin SGP_MAX_ENTITIES) (x y : Int)
    (f : CollideFlags) : (writeBack st i x y f).prev_player_x i = store16 x := by
  simp [writeBack]

theorem writeBack_y (st : CollisionCache) (i : Fin SGP_MAX_ENTITIES) (x y : Int)
    (f : CollideFlags) : (writeBack st i x y f).prev_player_y i = store16 y := by
  simp [writeBack]

theorem writeBack_f (st : CollisionCache) (i : Fin SGP_MAX_ENTITIES) (x y : Int)
    (f : CollideFlags) : (writeBack st i x y f).prev_collide_flags i = f := by
  simp [writeBack]

/-! Dispatch lemmas: `SGP_PlayerLevelCollision` at each single-bit
direction value reduces to the corresponding branch (for LEFT and RIGHT
after the fall-through clear of the vertical flags). -/

theorem collide_at_up (st : CollisionCache) (i : Fin SGP_MAX_ENTITIES) (x y : Int)
    (w h : Nat) (lvl : SGPLevelCollisionData) :
    SGP_PlayerLevelCollision st i x y w h lvl SGP_DIR_UP = upQuery st i x y w h lvl := rfl

theorem collide_at_down (st : CollisionCache) (i : Fin SGP_MAX_ENTITIES) (x y : Int)
    (w h : Nat) (lvl : SGPLevelCollisionData) :
    SGP_PlayerLevelCollision st i x y w h lvl SGP_DIR_DOWN = downQuery st i x y w h lvl := rfl

theorem collide_at_left (st : CollisionCache) (i : Fin SGP_MAX_ENTITIES) (x y : Int)
    (w h : Nat) (lvl : SGPLevelCollisionData) :
    SGP_PlayerLevelCollision st i x y w h lvl SGP_DIR_LEFT =
      leftQuery (clearVert st i) i x y w h lvl := rfl

theorem collide_at_right (st : CollisionCache) (i : Fin SGP_MAX_ENTITIES) (x y : Int)
    (w h : Nat) (lvl : SGPLevelCollisionData) :
    SGP_PlayerLevelCollision st i x y w h lvl SGP_DIR_RIGHT =
      rightQuery (clearVert st i) i x y w h lvl := rfl

theorem upQuery_noread_true (st : CollisionCache) (i : Fin SGP_MAX_ENTITIES) (x y : Int)
    (w h : Nat) (lvl : SGPLevelCollisionData) :
    ((upQuery st i x y w h lvl).result = true ∧ (upQuery st i x y w h lvl).reads = []) ↔
      upCacheHit st i x y := by
  have hflag : upCacheHit (clearDown st i) i x y ↔ upCacheHit st i x y := by
    unfold upCacheHit
    rw [clearDown_x, clearDown_y, clearDown_f]
  simp only [upQuery]
  split_ifs with h1 h2
  · simpa using hflag.mp h1
  · exact iff_of_false (by simp) (fun hc => h1 (hflag.mpr hc))
  · exact iff_of_false (by simp [upProbes]) (fun hc => h1 (hflag.mpr hc))

theorem downQuery_noread_true (st : CollisionCache) (i : Fin SGP_MAX_ENTITIES) (x y : Int)
    (w h : Nat) (lvl : SGPLevelCollisionData) :
    ((downQuery st i x y w h lvl).result = true ∧ (downQuery st i x y w h lvl).reads = []) ↔
      (alignGuardBit (y + (h : Int)) = 0 ∧ downCacheHit st i y) := by
  have hflag : downCacheHit (clearUp st i) i y ↔ downCacheHit st i y := by
    unfold downCacheHit
    rw [clearUp_y, clearUp_f]
  simp only [downQuery]
  split_ifs with h1 h2
  · exact iff_of_false (by simp) (fun hc => h1 hc.1)
  · exact iff_of_true (by simp) ⟨not_not.mp h1, hflag.mp h2⟩
  · exact iff_of_false (by simp [downProbes]) (fun hc => h2 (hflag.mpr hc.2))

theorem leftQuery_noread_true (st : CollisionCache) (i : Fin SGP_MAX_ENTITIES) (x y : Int)
    (w h : Nat) (lvl : SGPLevelCollisionData) :
    ((leftQuery st i x y w h lvl).result = true ∧ (leftQuery st i x y w h lvl).reads = []) ↔
      leftCacheHit st i x y := by
  have hflag : leftCacheHit (clearRight st i) i x y ↔ leftCacheHit st i x y := by
    unfold leftCacheHit
    rw [clearRight_x, clearRight_y, clearRight_f]
  simp only [leftQuery]
  split_ifs with h1 h2
  · simpa using hflag.mp h1
  · exact iff_of_false (by simp) (fun hc => h1 (hflag.mpr hc))
  · exact iff_of_false (by simp [leftProbes]) (fun hc => h1 (hflag.mpr hc))

theorem rightQuery_noread_true (st : CollisionCache) (i : Fin SGP_MAX_ENTITIES) (x y : Int)
    (w h : Nat) (lvl : SGPLevelCollisionData) :
    ((rightQuery st i x y w h lvl).result = true ∧ (rightQuery st i x y w h lvl).reads = []) ↔
      rightCacheHit st i x y := by
  have hflag : rightCacheHit (clearLeft st i) i x y ↔ rightCacheHit st i x y := by
    unfold rightCacheHit
    rw [clearLeft_x, clearLeft_y, clearLeft_f]
  simp only [rightQuery]
  split_ifs with h1 h2
  · simpa using hflag.mp h1
  · exact iff_of_false (by simp) (fun hc => h1 (hflag.mpr hc))
  · exact iff_of_false (by simp [rightProbes]) (fun hc => h1 (hflag.mpr hc))

theorem leftCacheHit_clearVert (st : CollisionCache) (i : Fin SGP_MAX_ENTITIES) (x y : Int) :
    leftCacheHit (clearVert st i) i x y ↔ leftCacheHit st i x y := by
  unfold leftCacheHit
  rw [clearVert_x, clearVert_y, clearVert_f]

theorem rightCacheHit_clearVert (st : CollisionCache) (i : Fin SGP_MAX_ENTITIES) (x y : Int) :
    rightCacheHit (clearVert st i) i x y ↔ rightCacheHit st i x y := by
  unfold rightCacheHit
  rw [clearVert_x, clearVert_y, clearVert_f]

/-! Guard behaviour (claim C10) and the tile-reading path of each branch
(claims C2 and C4). -/

theorem upQuery_guard (st : CollisionCache) (i : Fin SGP_MAX_ENTITIES) (x y : Int)
    (w h : Nat) (lvl : SGPLevelCollisionData) (hc : ¬ upCacheHit st i x y)
    (hg : alignGuardBit y ≠ 0) :
    (upQuery st i x y w h lvl).result = false ∧ (upQuery st i x y w h lvl).reads = [] := by
  have hflag : upCacheHit (clearDown st i) i x y ↔ upCacheHit st i x y := by
    unfold upCacheHit
    rw [clearDown_x, clearDown_y, clearDown_f]
  simp only [upQuery]
  split_ifs with h1
  · exact absurd (hflag.mp h1) hc
  · exact ⟨rfl, rfl⟩

theorem upQuery_full (st : CollisionCache) (i : Fin SGP_MAX_ENTITIES) (x y : Int)
    (w h : Nat) (lvl : SGPLevelCollisionData) (hc : ¬ upCacheHit st i x y)
    (hg : alignGuardBit y = 0) :
    (upQuery st i x y w h lvl).reads = upProbes x y w lvl.length ∧
      (upQuery st i x y w h lvl).result = probesHit lvl (upProbes x y w lvl.length) ∧
      (upQuery st i x y w h lvl).cache =
        writeBack (clearDown st i) i x y
          { (clearDown st i).prev_collide_flags i with
              up := probesHit lvl (upProbes x y w lvl.length) } := by
  have hflag : upCacheHit (clearDown st i) i x y ↔ upCacheHit st i x y := by
    unfold upCacheHit
    rw [clearDown_x, clearDown_y, clearDown_f]
  simp only [upQuery]
  split_ifs with h1 h2
  · exact absurd (hflag.mp h1) hc
  · exact absurd hg h2
  · exact ⟨rfl, rfl, rfl⟩

theorem downQuery_guard (st : CollisionCache) (i : Fin SGP_MAX_ENTITIES) (x y : Int)
    (w h : Nat) (lvl : SGPLevelCollisionData)
    (hg : alignGuardBit (y + (h : Int)) ≠ 0) :
    (downQuery st i x y w h lvl).result = false ∧ (downQuery st i x y w h lvl).reads = [] := by
  simp only [downQuery]
  split_ifs
  exact ⟨rfl, rfl⟩

theorem downQuery_full (st : CollisionCache) (i : Fin SGP_MAX_ENTITIES) (x y : Int)
    (w h : Nat) (lvl : SGPLevelCollisionData) (hc : ¬ downCacheHit st i y)
    (hg : alignGuardBit (y + (h : Int)) = 0) :
    (downQuery st i x y w h lvl).reads = downProbes x y w h lvl.length ∧
      (downQuery st i x y w h lvl).result = probesHit lvl (downProbes x y w h lvl.length) ∧
      (downQuery st i x y w h lvl).cache =
        writeBack (clearUp st i) i x y
          { (clearUp st i).prev_collide_flags i with
              down := probesHit lvl (downProbes x y w h lvl.length) } := by
  have hflag : downCacheHit (clearUp st i) i y ↔ downCacheHit st i y := by
    unfold downCacheHit
    rw [clearUp_y, clearUp_f]
  simp only [downQuery]
  split_ifs with h1 h2
  · exact absurd hg h1
  · exact absurd (hflag.mp h2) hc
  · exact ⟨rfl, rfl, rfl⟩

theorem leftQuery_guard (st : CollisionCache) (i : Fin SGP_MAX_ENTITIES) (x y : Int)
    (w h : Nat) (lvl : SGPLevelCollisionData) (hc : ¬ leftCacheHit st i x y)
    (hg : alignGuardBit x ≠ 0) :
    (leftQuery st i x y w h lvl).result = false ∧ (leftQuery st i x y w h lvl).reads = [] := by
  have hflag : leftCacheHit (clearRight st i) i x y ↔ leftCacheHit st i x y := by
    unfold leftCacheHit
    rw [clearRight_x, clearRight_y, clearRight_f]
  simp only [leftQuery]
  split_ifs with h1
  · exact absurd (hflag.mp h1) hc
  · exact ⟨rfl, rfl⟩

theorem leftQuery_full (st : CollisionCache) (i : Fin SGP_MAX_ENTITIES) (x y : Int)
    (w h : Nat) (lvl : SGPLevelCollisionData) (hc : ¬ leftCacheHit st i x y)
    (hg : alignGuardBit x = 0) :
    (leftQuery st i x y w h lvl).reads = leftProbes x y h lvl.length ∧
      (leftQuery st i x y w h lvl).result = probesHit lvl (leftProbes x y h lvl.length) ∧
      (leftQuery st i x y w h lvl).cache =
        writeBack (clearRight st i) i x y
          { (clearRight st i).prev_collide_flags i with
              left := probesHit lvl (leftProbes x y h lvl.length) } := by
  have hflag : leftCacheHit (clearRight st i) i x y ↔ leftCacheHit st i x y := by
    unfold leftCacheHit
    rw [clearRight_x, clearRight_y, clearRight_f]
  simp only [leftQuery]
  split_ifs with h1 h2
  · exact absurd (hflag.mp h1) hc
  · exact absurd hg h2
  · exact ⟨rfl, rfl, rfl⟩

theorem rightQuery_guard (st : CollisionCache) (i : Fin SGP_MAX_ENTITIES) (x y : Int)
    (w h : Nat) (lvl : SGPLevelCollisionData) (hc : ¬ rightCacheHit st i x y)
    (hg : alignGuardBit (x + (w : Int)) ≠ 0) :
    (rightQuery st i x y w h lvl).result = false ∧ (rightQuery st i x y w h lvl).reads = [] := by
  have hflag : rightCacheHit (clearLeft st i) i x y ↔ rightCacheHit st i x y := by
    unfold rightCacheHit
    rw [clearLeft_x, clearLeft_y, clearLeft_f]
  simp only [rightQuery]
  split_ifs with h1
  · exact absurd (hflag.mp h1) hc
  · exact ⟨rfl, rfl⟩

theorem rightQuery_full (st : CollisionCache) (i : Fin SGP_MAX_ENTITIES) (x y : Int)
    (w h : Nat) (lvl : SGPLevelCollisionData) (hc : ¬ rightCacheHit st i x y)
    (hg : alignGuardBit (x + (w : Int)) = 0) :
    (rightQuery st i x y w h lvl).reads = rightProbes x y w h lvl.length ∧
      (rightQuery st i x y w h lvl).result = probesHit lvl (rightProbes x y w h lvl.length) ∧
      (rightQuery st i x y w h lvl).cache =
        writeBack (clearLeft st i) i x y
          { (clearLeft st i).prev_collide_flags i with
              right := probesHit lvl (rightProbes x y w h lvl.length) } := by
  have hflag : rightCacheHit (clearLeft st i) i x y ↔ rightCacheHit st i x y := by
    unfold rightCacheHit
    rw [clearLeft_x, clearLeft_y, clearLeft_f]
  simp only [rightQuery]
  split_ifs with h1 h2
  · exact absurd (hflag.mp h1) hc
  · exact absurd hg h2
  · exact ⟨rfl, rfl, rfl⟩

/-! Preservation of the cache-hit conditions under the flag clears, and
closed-form evaluations of each branch on the cache-hit and guard paths. -/

theorem upCacheHit_clearDown (st : CollisionCache) (i : Fin SGP_MAX_ENTITIES) (x y : Int) :
    upCacheHit (clearDown st i) i x y ↔ upCacheHit st i x y := by
  unfold upCacheHit
  rw [clearDown_x, clearDown_y, clearDown_f]

theorem downCacheHit_clearUp (st : CollisionCache) (i : Fin SGP_MAX_ENTITIES) (y : Int) :
    downCacheHit (clearUp st i) i y ↔ downCacheHit st i y := by
  unfold downCacheHit
  rw [clearUp_y, clearUp_f]

theorem leftCacheHit_clearRight (st : CollisionCache) (i : Fin SGP_MAX_ENTITIES) (x y : Int) :
    leftCacheHit (clearRight st i) i x y ↔ leftCacheHit st i x y := by
  unfold leftCacheHit
  rw [clearRight_x, clearRight_y, clearRight_f]

theorem rightCacheHit_clearLeft (st : CollisionCache) (i : Fin SGP_MAX_ENTITIES) (x y : Int) :
    rightCacheHit (clearLeft st i) i x y ↔ rightCacheHit st i x y := by
  unfold rightCacheHit
  rw [clearLeft_x, clearLeft_y, clearLeft_f]

theorem upQuery_hit (st : CollisionCache) (i : Fin SGP_MAX_ENTITIES) (x y : Int)
    (w h : Nat) (lvl : SGPLevelCollisionData) (hc : upCacheHit st i x y) :
    upQuery st i x y w h lvl = ⟨true, clearDown st i, []⟩ := by
  simp only [upQuery]
  split_ifs with h1 h2
  · rfl
  · exact absurd ((upCacheHit_clearDown st i x y).mpr hc) h1
  · exact absurd ((upCacheHit_clearDown st i x y).mpr hc) h1

theorem upQuery_guardEq (st : CollisionCache) (i : Fin SGP_MAX_ENTITIES) (x y : Int)
    (w h : Nat) (lvl : SGPLevelCollisionData) (hc : ¬ upCacheHit st i x y)
    (hg : alignGuardBit y ≠ 0) :
    upQuery st i x y w h lvl = ⟨false, clearDown st i, []⟩ := by
  simp only [upQuery]
  split_ifs with h1
  · exact absurd ((upCacheHit_clearDown st i x y).mp h1) hc
  · rfl

theorem downQuery_hit (st : CollisionCache) (i : Fin SGP_MAX_ENTITIES) (x y : Int)
    (w h : Nat) (lvl : SGPLevelCollisionData) (hc : downCacheHit st i y)
    (hg : alignGuardBit (y + (h : Int)) = 0) :
    downQuery st i x y w h lvl = ⟨true, clearUp st i, []⟩ := by
  simp only [downQuery]
  split_ifs with h1 h2
  · exact absurd hg h1
  · rfl
  · exact absurd ((downCacheHit_clearUp st i y).mpr hc) h2

theorem downQuery_guardEq (st : CollisionCache) (i : Fin SGP_MAX_ENTITIES) (x y : Int)
    (w h : Nat) (lvl : SGPLevelCollisionData)
    (hg : alignGuardBit (y + (h : Int)) ≠ 0) :
    downQuery st i x y w h lvl = ⟨false, clearUp st i, []⟩ := by
  simp only [downQuery]
  split_ifs
  rfl

theorem leftQuery_hit (st : CollisionCache) (i : Fin SGP_MAX_ENTITIES) (x y : Int)
    (w h : Nat) (lvl : SGPLevelCollisionData) (hc : leftCacheHit st i x y) :
    leftQuery st i x y w h lvl = ⟨true, clearRight st i, []⟩ := by
  simp only [leftQuery]
  split_ifs with h1 h2
  · rfl
  · exact absurd ((leftCacheHit_clearRight st i x y).mpr hc) h1
  · exact absurd ((leftCacheHit_clearRight st i x y).mpr hc) h1

theorem leftQuery_guardEq (st : CollisionCache) (i : Fin SGP_MAX_ENTITIES) (x y : Int)
    (w h : Nat) (lvl : SGPLevelCollisionData) (hc : ¬ leftCacheHit st i x y)
    (hg : alignGuardBit x ≠ 0) :
    leftQuery st i x y w h lvl = ⟨false, clearRight st i, []⟩ := by
  simp only [leftQuery]
  split_ifs with h1
  · exact absurd ((leftCacheHit_clearRight st i x y).mp h1) hc
  · rfl

theorem rightQuery_hit (st : CollisionCache) (i : Fin SGP_MAX_ENTITIES) (x y : Int)
    (w h : Nat) (lvl : SGPLevelCollisionData) (hc : rightCacheHit st i x y) :
    rightQuery st i x y w h lvl = ⟨true, clearLeft st i, []⟩ := by
  simp only [rightQuery]
  split_ifs with h1 h2
  · rfl
  · exact absurd ((rightCacheHit_clearLeft st i x y).mpr hc) h1
  · exact absurd ((rightCacheHit_clearLeft st i x y).mpr hc) h1

theorem rightQuery_guardEq (st : CollisionCache) (i : Fin SGP_MAX_ENTITIES) (x y : Int)
    (w h : Nat) (lvl : SGPLevelCollisionData) (hc : ¬ rightCacheHit st i x y)
    (hg : alignGuardBit (x + (w : Int)) ≠ 0) :
    rightQuery st i x y w h lvl = ⟨false, clearLeft st i, []⟩ := by
  simp only [rightQuery]
  split_ifs with h1
  · exact absurd ((rightCacheHit_clearLeft st i x y).mp h1) hc
  · rfl

theorem up_idem (st : CollisionCache) (i : Fin SGP_MAX_ENTITIES) (x y : Int)
    (w h : Nat) (lvl : SGPLevelCollisionData) :
    (upQuery st i x y w h lvl).result =
      (upQuery (upQuery st i x y w h lvl).cache i x y w h lvl).result ∧
    ((upQuery st i x y w h lvl).result = true → 0 ≤ x → x < 65536 → 0 ≤ y → y < 65536 →
      (upQuery (upQuery st i x y w h lvl).cache i x y w h lvl).reads = []) := by
  by_cases hc : upCacheHit st i x y
  · rw [upQuery_hit st i x y w h lvl hc]
    rw [upQuery_hit (clearDown st i) i x y w h lvl ((upCacheHit_clearDown st i x y).mpr hc)]
    exact ⟨rfl, fun _ _ _ _ _ => rfl⟩
  · by_cases hg : alignGuardBit y = 0
    · obtain ⟨hr, hres, hcache⟩ := upQuery_full st i x y w h lvl hc hg
      by_cases hc2 : upCacheHit (upQuery st i x y w h lvl).cache i x y
      · have hup : ((upQuery st i x y w h lvl).cache.prev_collide_flags i).up
            = probesHit lvl (upProbes x y w lvl.length) := by
          rw [hcache, writeBack_f]
        rw [upQuery_hit _ i x y w h lvl hc2]
        refine ⟨?_, fun _ _ _ _ _ => rfl⟩
        rw [hres, ← hup]
        exact hc2.2.2
      · obtain ⟨hr2, hres2, _⟩ := upQuery_full _ i x y w h lvl hc2 hg
        refine ⟨by rw [hres, hres2], ?_⟩
        intro htrue h0x hx h0y hy
        exfalso
        apply hc2
        refine ⟨?_, ?_, ?_⟩
        · rw [hcache, writeBack_y, store16_coe y h0y hy]
        · rw [hcache, writeBack_x, store16_coe x h0x hx]
        · rw [hcache, writeBack_f]
          rw [hres] at htrue
          exact htrue
    · have hg2 : alignGuardBit y ≠ 0 := hg
      rw [upQuery_guardEq st i x y w h lvl hc hg2]
      have hc2 : ¬ upCacheHit (clearDown st i) i x y :=
        fun hcc => hc ((upCacheHit_clearDown st i x y).mp hcc)
      rw [upQuery_guardEq (clearDown st i) i x y w h lvl hc2 hg2]
      exact ⟨rfl, fun htrue => absurd htrue (by simp)⟩

theorem down_idem (st : CollisionCache) (i : Fin SGP_MAX_ENTITIES) (x y : Int)
    (w h : Nat) (lvl : SGPLevelCollisionData) :
    (downQuery st i x y w h lvl).result =
      (downQuery (downQuery st i x y w h lvl).cache i x y w h lvl).result ∧
    ((downQuery st i x y w h lvl).result = true → 0 ≤ y → y < 65536 →
      (downQuery (downQuery st i x y w h lvl).cache i x y w h lvl).reads = []) := by
  by_cases hg : alignGuardBit (y + (h : Int)) = 0
  · by_cases hc : downCacheHit st i y
    · rw [downQuery_hit st i x y w h lvl hc hg,
          downQuery_hit (clearUp st i) i x y w h lvl ((downCacheHit_clearUp st i y).mpr hc) hg]
      exact ⟨rfl, fun _ _ _ => rfl⟩
    · obtain ⟨hr, hres, hcache⟩ := downQuery_full st i x y w h lvl hc hg
      by_cases hc2 : downCacheHit (downQuery st i x y w h lvl).cache i y
      · have hdn : ((downQuery st i x y w h lvl).cache.prev_collide_flags i).down
            = probesHit lvl (downProbes x y w h lvl.length) := by
          rw [hcache, writeBack_f]
        rw [downQuery_hit _ i x y w h lvl hc2 hg]
        refine ⟨?_, fun _ _ _ => rfl⟩
        rw [hres, ← hdn]
        exact hc2.2
      · obtain ⟨hr2, hres2, _⟩ := downQuery_full _ i x y w h lvl hc2 hg
        refine ⟨by rw [hres, hres2], ?_⟩
        intro htrue h0y hy
        exfalso
        apply hc2
        refine ⟨?_, ?_⟩
        · rw [hcache, writeBack_y, store16_coe y h0y hy]
        · rw [hcache, writeBack_f]
          rw [hres] at htrue
          exact htrue
  · have hg2 : alignGuardBit (y + (h : Int)) ≠ 0 := hg
    rw [downQuery_guardEq st i x y w h lvl hg2,
        downQuery_guardEq (clearUp st i) i x y w h lvl hg2]
    exact ⟨rfl, fun htrue => absurd htrue (by simp)⟩

theorem left_idem (st : CollisionCache) (i : Fin SGP_MAX_ENTITIES) (x y : Int)
    (w h : Nat) (lvl : SGPLevelCollisionData) :
    (SGP_PlayerLevelCollision st i x y w h lvl SGP_DIR_LEFT).result =
      (SGP_PlayerLevelCollision (SGP_PlayerLevelCollision st i x y w h lvl SGP_DIR_LEFT).cache
        i x y w h lvl SGP_DIR_LEFT).result ∧
    ((SGP_PlayerLevelCollision st i x y w h lvl SGP_DIR_LEFT).result = true →
      0 ≤ x → x < 65536 → 0 ≤ y → y < 65536 →
      (SGP_PlayerLevelCollision (SGP_PlayerLevelCollision st i x y w h lvl SGP_DIR_LEFT).cache
        i x y w h lvl SGP_DIR_LEFT).reads = []) := by
  simp only [collide_at_left]
  by_cases hc : leftCacheHit (clearVert st i) i x y
  · rw [leftQuery_hit _ i x y w h lvl hc]
    have hc2 : leftCacheHit (clearVert (clearRight (clearVert st i) i) i) i x y :=
      (leftCacheHit_clearVert _ i x y).mpr ((leftCacheHit_clearRight _ i x y).mpr hc)
    rw [leftQuery_hit _ i x y w h lvl hc2]
    exact ⟨rfl, fun _ _ _ _ _ => rfl⟩
  · by_cases hg : alignGuardBit x = 0
    · obtain ⟨hr, hres, hcache⟩ := leftQuery_full (clearVert st i) i x y w h lvl hc hg
      by_cases hc2 : leftCacheHit
          (clearVert (leftQuery (clearVert st i) i x y w h lvl).cache i) i x y
      · have hlf : ((clearVert (leftQuery (clearVert st i) i x y w h lvl).cache i).prev_collide_flags i).left
            = probesHit lvl (leftProbes x y h lvl.length) := by
          rw [clearVert_f]
          show ((leftQuery (clearVert st i) i x y w h lvl).cache.prev_collide_flags i).left = _
          rw [hcache, writeBack_f]
        rw [leftQuery_hit _ i x y w h lvl hc2]
        refine ⟨?_, fun _ _ _ _ _ => rfl⟩
        rw [hres, ← hlf]
        exact hc2.2.2
      · obtain ⟨hr2, hres2, _⟩ := leftQuery_full _ i x y w h lvl hc2 hg
        refine ⟨by rw [hres, hres2], ?_⟩
        intro htrue h0x hx h0y hy
        exfalso
        apply hc2
        refine ⟨?_, ?_, ?_⟩
        · rw [clearVert_x, hcache, writeBack_x, store16_coe x h0x hx]
        · rw [clearVert_y, hcache, writeBack_y, store16_coe y h0y hy]
        · rw [clearVert_f]
          show ((leftQuery (clearVert st i) i x y w h lvl).cache.prev_collide_flags i).left = true
          rw [hcache, writeBack_f]
          rw [hres] at htrue
          exact htrue
    · have hg2 : alignGuardBit x ≠ 0 := hg
      rw [leftQuery_guardEq _ i x y w h lvl hc hg2]
      have hc2 : ¬ leftCacheHit (clearVert (clearRight (clearVert st i) i) i) i x y :=
        fun hcc => hc ((leftCacheHit_clearRight _ i x y).mp
          ((leftCacheHit_clearVert _ i x y).mp hcc))
      rw [leftQuery_guardEq _ i x y w h lvl hc2 hg2]
      exact ⟨rfl, fun htrue => absurd htrue (by simp)⟩

theorem right_idem (st : CollisionCache) (i : Fin SGP_MAX_ENTITIES) (x y : Int)
    (w h : Nat) (lvl : SGPLevelCollisionData) :
    (SGP_PlayerLevelCollision st i x y w h lvl SGP_DIR_RIGHT).result =
      (SGP_PlayerLevelCollision (SGP_PlayerLevelCollision st i x y w h lvl SGP_DIR_RIGHT).cache
        i x y w h lvl SGP_DIR_RIGHT).result ∧
    ((SGP_PlayerLevelCollision st i x y w h lvl SGP_DIR_RIGHT).result = true →
      0 ≤ x → x < 65536 → 0 ≤ y → y < 65536 →
      (SGP_PlayerLevelCollision (SGP_PlayerLevelCollision st i x y w h lvl SGP_DIR_RIGHT).cache
        i x y w h lvl SGP_DIR_RIGHT).reads = []) := by
  simp only [collide_at_right]
  by_cases hc : rightCacheHit (clearVert st i) i x y
  · rw [rightQuery_hit _ i x y w h lvl hc]
    have hc2 : rightCacheHit (clearVert (clearLeft (clearVert st i) i) i) i x y :=
      (rightCacheHit_clearVert _ i x y).mpr ((rightCacheHit_clearLeft _ i x y).mpr hc)
    rw [rightQuery_hit _ i x y w h lvl hc2]
    exact ⟨rfl, fun _ _ _ _ _ => rfl⟩
  · by_cases hg : alignGuardBit (x + (w : Int)) = 0
    · obtain ⟨hr, hres, hcache⟩ := rightQuery_full (clearVert st i) i x y w h lvl hc hg
      by_cases hc2 : rightCacheHit
          (clearVert (rightQuery (clearVert st i) i x y w h lvl).cache i) i x y
      · have hrf : ((clearVert (rightQuery (clearVert st i) i x y w h lvl).cache i).prev_collide_flags i).right
            = probesHit lvl (rightProbes x y w h lvl.length) := by
          rw [clearVert_f]
          show ((rightQuery (clearVert st i) i x y w h lvl).cache.prev_collide_flags i).right = _
          rw [hcache, writeBack_f]
        rw [rightQuery_hit _ i x y w h lvl hc2]
        refine ⟨?_, fun _ _ _ _ _ => rfl⟩
        rw [hres, ← hrf]
        exact hc2.2.2
      · obtain ⟨hr2, hres2, _⟩ := rightQuery_full _ i x y w h lvl hc2 hg
        refine ⟨by rw [hres, hres2], ?_⟩
        intro htrue h0x hx h0y hy
        exfalso
        apply hc2
        refine ⟨?_, ?_, ?_⟩
        · rw [clearVert_x, hcache, writeBack_x, store16_coe x h0x hx]
        · rw [clearVert_y, hcache, writeBack_y, store16_coe y h0y hy]
        · rw [clearVert_f]
          show ((rightQuery (clearVert st i) i x y w h lvl).cache.prev_collide_flags i).right = true
          rw [hcache, writeBack_f]
          rw [hres] at htrue
          exact htrue
    · have hg2 : alignGuardBit (x + (w : Int)) ≠ 0 := hg
      rw [rightQuery_guardEq _ i x y w h lvl hc hg2]
      have hc2 : ¬ rightCacheHit (clearVert (clearLeft (clearVert st i) i) i) i x y :=
        fun hcc => hc ((rightCacheHit_clearLeft _ i x y).mp
          ((rightCacheHit_clearVert _ i x y).mp hcc))
      rw [rightQuery_guardEq _ i x y w h lvl hc2 hg2]
      exact ⟨rfl, fun htrue => absurd htrue (by simp)⟩

/-! Effect of each query on the four cached flags (claim C4). -/

theorem upQuery_pres (st : CollisionCache) (i : Fin SGP_MAX_ENTITIES) (x y : Int)
    (w h : Nat) (lvl : SGPLevelCollisionData) :
    (((upQuery st i x y w h lvl).cache.prev_collide_flags i).left
        = (st.prev_collide_flags i).left) ∧
    (((upQuery st i x y w h lvl).cache.prev_collide_flags i).right
        = (st.prev_collide_flags i).right) ∧
    ((upQuery st i x y w h lvl).cache.prev_collide_flags i).down = false := by
  simp only [upQuery]
  split_ifs <;> simp [clearDown_f, writeBack_f]

theorem downQuery_pres (st : CollisionCache) (i : Fin SGP_MAX_ENTITIES) (x y : Int)
    (w h : Nat) (lvl : SGPLevelCollisionData) :
    (((downQuery st i x y w h lvl).cache.prev_collide_flags i).left
        = (st.prev_collide_flags i).left) ∧
    (((downQuery st i x y w h lvl).cache.prev_collide_flags i).right
        = (st.prev_collide_flags i).right) ∧
    ((downQuery st i x y w h lvl).cache.prev_collide_flags i).up = false := by
  simp only [downQuery]
  split_ifs <;> simp [clearUp_f, writeBack_f]

theorem left_flags (st : CollisionCache) (i : Fin SGP_MAX_ENTITIES) (x y : Int)
    (w h : Nat) (lvl : SGPLevelCollisionData) :
    (((SGP_PlayerLevelCollision st i x y w h lvl SGP_DIR_LEFT).cache.prev_collide_flags i).right
        = false) ∧
    (((SGP_PlayerLevelCollision st i x y w h lvl SGP_DIR_LEFT).cache.prev_collide_flags i).up
        = false) ∧
    ((SGP_PlayerLevelCollision st i x y w h lvl SGP_DIR_LEFT).cache.prev_collide_flags i).down
        = false := by
  simp only [collide_at_left, leftQuery]
  split_ifs <;> simp [clearRight_f, clearVert_f, writeBack_f]

theorem right_flags (st : CollisionCache) (i : Fin SGP_MAX_ENTITIES) (x y : Int)
    (w h : Nat) (lvl : SGPLevelCollisionData) :
    (((SGP_PlayerLevelCollision st i x y w h lvl SGP_DIR_RIGHT).cache.prev_collide_flags i).left
        = false) ∧
    (((SGP_PlayerLevelCollision st i x y w h lvl SGP_DIR_RIGHT).cache.prev_collide_flags i).up
        = false) ∧
    ((SGP_PlayerLevelCollision st i x y w h lvl SGP_DIR_RIGHT).cache.prev_collide_flags i).down
        = false := by
  simp only [collide_at_right, rightQuery]
  split_ifs <;> simp [clearLeft_f, clearVert_f, writeBack_f]

theorem upQuery_own (st : CollisionCache) (i : Fin SGP_MAX_ENTITIES) (x y : Int)
    (w h : Nat) (lvl : SGPLevelCollisionData)
    (hr : (upQuery st i x y w h lvl).reads ≠ []) :
    ((upQuery st i x y w h lvl).cache.prev_collide_flags i).up
      = (upQuery st i x y w h lvl).result := by
  simp only [upQuery] at hr ⊢
  split_ifs at hr ⊢ with h1 h2
  · exact absurd rfl hr
  · exact absurd rfl hr
  · simp [writeBack_f]

theorem downQuery_own (st : CollisionCache) (i : Fin SGP_MAX_ENTITIES) (x y : Int)
    (w h : Nat) (lvl : SGPLevelCollisionData)
    (hr : (downQuery st i x y w h lvl).reads ≠ []) :
    ((downQuery st i x y w h lvl).cache.prev_collide_flags i).down
      = (downQuery st i x y w h lvl).result := by
  simp only [downQuery] at hr ⊢
  split_ifs at hr ⊢ with h1 h2
  · exact absurd rfl hr
  · exact absurd rfl hr
  · simp [writeBack_f]

theorem leftQuery_own (st : CollisionCache) (i : Fin SGP_MAX_ENTITIES) (x y : Int)
    (w h : Nat) (lvl : SGPLevelCollisionData)
    (hr : (leftQuery st i x y w h lvl).reads ≠ []) :
    ((leftQuery st i x y w h lvl).cache.prev_collide_flags i).left
      = (leftQuery st i x y w h lvl).result := by
  simp only [leftQuery] at hr ⊢
  split_ifs at hr ⊢ with h1 h2
  · exact absurd rfl hr
  · exact absurd rfl hr
  · simp [writeBack_f]

theorem rightQuery_own (st : CollisionCache) (i : Fin SGP_MAX_ENTITIES) (x y : Int)
    (w h : Nat) (lvl : SGPLevelCollisionData)
    (hr : (rightQuery st i x y w h lvl).reads ≠ []) :
    ((rightQuery st i x y w h lvl).cache.prev_collide_flags i).right
      = (rightQuery st i x y w h lvl).result := by
  simp only [rightQuery] at hr ⊢
  split_ifs at hr ⊢ with h1 h2
  · exact absurd rfl hr
  · exact absurd rfl hr
  · simp [writeBack_f]

theorem left_then_right_no_cached_true (st : CollisionCache) (i : Fin SGP_MAX_ENTITIES)
    (x y : Int) (w h : Nat) (lvl : SGPLevelCollisionData) :
    ¬ ((SGP_PlayerLevelCollision (SGP_PlayerLevelCollision st i x y w h lvl SGP_DIR_LEFT).cache
          i x y w h lvl SGP_DIR_RIGHT).result = true ∧
       (SGP_PlayerLevelCollision (SGP_PlayerLevelCollision st i x y w h lvl SGP_DIR_LEFT).cache
          i x y w h lvl SGP_DIR_RIGHT).reads = []) := by
  intro hcon
  rw [collide_at_right] at hcon
  have h2 := (rightQuery_noread_true _ i x y w h lvl).mp hcon
  have h3 := ((rightCacheHit_clearVert _ i x y).mp h2).2.2
  have h4 := (left_flags st i x y w h lvl).1
  rw [h4] at h3
  exact absurd h3 (by simp)

/-- Claim C6: with the camera active on a bound 32x16-metatile map
(4096x2048 pixels) and the screen-centre offset (sprite dimensions 0, so
the subtracted offset is exactly `(160, 112)`), following a target at
any in-map world position clamps each axis independently to
`[0, 4096 - 320]` and `[0, 2048 - 224]`; in particular the target
`(4095, 2047)` yields camera position `(3776, 1824)`. -/
theorem C6_camera_follow_clamp (s : SGPCameraState) (tx ty : Int) (spr : Bool)
    (hact : s.active = true) (hmw : s.map_width = 4096) (hmh : s.map_height = 2048)
    (htx0 : 0 ≤ tx) (htx : tx ≤ 4095) (hty0 : 0 ≤ ty) (hty : ty ≤ 2047) :
    (SGP_CameraFollowTarget s tx ty 0 0 spr).1.current_x
        = (min (max (tx - 160) 0) 3776).toNat ∧
    (SGP_CameraFollowTarget s tx ty 0 0 spr).1.current_y
        = (min (max (ty - 112) 0) 1824).toNat := by
  have hna : ¬ (s.active = false) := by rw [hact]; simp
  have hxm : tx % 65536 = tx := by omega
  have hym : ty % 65536 = ty := by omega
  unfold SGP_CameraFollowTarget
  rw [if_neg hna]
  simp only [hxm, hym, hmw, hmh]
  norm_num [screenWidth, screenHeight]
  rw [wrap16s_self (tx - 160) (by omega) (by omega),
      wrap16s_self (ty - 112) (by omega) (by omega),
      wrap16s_self 3776 (by omega) (by omega),
      wrap16s_self 1824 (by omega) (by omega)]
  set A : Int := if 3776 < (if tx - 160 < 0 then 0 else tx - 160) then 3776
    else (if tx - 160 < 0 then 0 else tx - 160) with hA
  set B : Int := if 1824 < (if ty - 112 < 0 then 0 else ty - 112) then 1824
    else (if ty - 112 < 0 then 0 else ty - 112) with hB
  have hA0 : 0 ≤ A ∧ A ≤ 3776 := by rw [hA]; split_ifs <;> omega
  have hB0 : 0 ≤ B ∧ B ≤ 1824 := by rw [hB]; split_ifs <;> omega
  have hAmin : A = min (max (tx - 160) 0) 3776 := by rw [hA]; split_ifs <;> omega
  have hBmin : B = min (max (ty - 112) 0) 1824 := by rw [hB]; split_ifs <;> omega
  constructor <;> split_ifs with hm
  · show toU32 A = _
    rw [toU32_toNat A hA0.1 (by omega), hAmin]
  · push_neg at hm
    show s.current_x = _
    rw [hm.1, toU32_toNat A hA0.1 (by omega), hAmin]
  · show toU32 B = _
    rw [toU32_toNat B hB0.1 (by omega), hBmin]
  · push_neg at hm
    show s.current_y = _
    rw [hm.2, toU32_toNat B hB0.1 (by omega), hBmin]

theorem follow_inactive (s : SGPCameraState) (tx ty : Int) (sw sh : Nat) (spr : Bool)
    (h : s.active = false) : SGP_CameraFollowTarget s tx ty sw sh spr = (s, []) := by
  unfold SGP_CameraFollowTarget
  rw [if_pos h]

theorem update_active (s : SGPCameraState) (x y : Nat) (h : s.active = true) :
    SGP_UpdateCameraPosition s x y = (s, []) := by
  unfold SGP_UpdateCameraPosition
  rw [if_pos h]

theorem update_inactive (s : SGPCameraState) (x y : Nat) (h : s.active = false) :
    SGP_UpdateCameraPosition s x y
      = ({ s with current_x := x, current_y := y }, [SGPEffect.scrollTo x y]) := by
  unfold SGP_UpdateCameraPosition
  rw [if_neg (by rw [h]; simp)]

example : (SGP_PlayerLevelCollision initialCache 0 (-16) 32 16 16 testLevel SGP_DIR_LEFT).result
    = false := by decide

example : (SGP_PlayerLevelCollision initialCache 0 (-16) 32 16 16 testLevel SGP_DIR_LEFT).reads
    = [14, 14] := by decide

/-! The claim theorems. -/

/-- Claim C1 (code behaviour at the failing input): a LEFT query with the
entity at `(-16, 32)` (16x16 box) on the 8x8 bordered test grid computes
tile column `(-16 - 1) >> 4 = -2` and reads linear offset
`-2 + 2 * 8 = 14`, i.e. row 1 column 6 of the grid, which is empty, and
returns false — there is no out-of-bounds policy in
`SGP_PlayerLevelCollision`; the claim (and the test suite of the
repository) requires true. -/
theorem C1_code_behavior :
    (SGP_PlayerLevelCollision initialCache 0 (-16) 32 16 16 testLevel SGP_DIR_LEFT).result
        = false ∧
    (SGP_PlayerLevelCollision initialCache 0 (-16) 32 16 16 testLevel SGP_DIR_LEFT).reads
        = [14, 14] ∧
    testLevelData.getD 14 0 = 0 := by decide

/-- Claim C2 (counterexample): at a LEFT query from `(16, 0)` with a 16x16
box, the code reads offset 0 (tile column `(16 - 1) >> 4 = 0`), not the
offset 1 that the claim formula `tile_left = floor(16/16) = 1` names. -/
theorem C2_counterexample :
    (SGP_PlayerLevelCollision initialCache 0 16 0 16 16 testLevel SGP_DIR_LEFT).reads
        = [0, 0] ∧
    claimC2probes SGP_DIR_LEFT 16 0 16 16 testLevel.length = [1, 1] ∧
    (SGP_PlayerLevelCollision initialCache 0 16 0 16 16 testLevel SGP_DIR_LEFT).reads
        ≠ claimC2probes SGP_DIR_LEFT 16 0 16 16 testLevel.length := by decide

/-- Claim C2 (amended): for every query that is not cache-short-circuited
and passes its alignment guard, the probed offsets carry a one-pixel
look-ahead on the probed edge (LEFT uses column `floor((x-1)/16)`, RIGHT
`floor((x+w)/16)`, UP row `floor((y-1)/16)`, DOWN row `floor((y+h)/16)`)
and vertical queries inset the left perpendicular edge by one pixel
(column `floor((x+1)/16)`); horizontal queries use rows `floor(y/16)`
and `floor((y+h-1)/16)` uninset; each linear offset is truncated to s16;
the returned boolean is the OR of the solidity of the two probed
offsets. -/
theorem C2_amended (st : CollisionCache) (i : Fin SGP_MAX_ENTITIES) (x y : Int)
    (w h : Nat) (lvl : SGPLevelCollisionData) :
    (¬ upCacheHit st i x y → alignGuardBit y = 0 →
      (SGP_PlayerLevelCollision st i x y w h lvl SGP_DIR_UP).reads
          = upProbes x y w lvl.length ∧
      (SGP_PlayerLevelCollision st i x y w h lvl SGP_DIR_UP).result
          = probesHit lvl (upProbes x y w lvl.length)) ∧
    (¬ downCacheHit st i y → alignGuardBit (y + (h : Int)) = 0 →
      (SGP_PlayerLevelCollision st i x y w h lvl SGP_DIR_DOWN).reads
          = downProbes x y w h lvl.length ∧
      (SGP_PlayerLevelCollision st i x y w h lvl SGP_DIR_DOWN).result
          = probesHit lvl (downProbes x y w h lvl.length)) ∧
    (¬ leftCacheHit st i x y → alignGuardBit x = 0 →
      (SGP_PlayerLevelCollision st i x y w h lvl SGP_DIR_LEFT).reads
          = leftProbes x y h lvl.length ∧
      (SGP_PlayerLevelCollision st i x y w h lvl SGP_DIR_LEFT).result
          = probesHit lvl (leftProbes x y h lvl.length)) ∧
    (¬ rightCacheHit st i x y → alignGuardBit (x + (w : Int)) = 0 →
      (SGP_PlayerLevelCollision st i x y w h lvl SGP_DIR_RIGHT).reads
          = rightProbes x y w h lvl.length ∧
      (SGP_PlayerLevelCollision st i x y w h lvl SGP_DIR_RIGHT).result
          = probesHit lvl (rightProbes x y w h lvl.length)) := by
  refine ⟨fun hc hg => ?_, fun hc hg => ?_, fun hc hg => ?_, fun hc hg => ?_⟩
  · rw [collide_at_up]
    obtain ⟨h1, h2, _⟩ := upQuery_full st i x y w h lvl hc hg
    exact ⟨h1, h2⟩
  · rw [collide_at_down]
    obtain ⟨h1, h2, _⟩ := downQuery_full st i x y w h lvl hc hg
    exact ⟨h1, h2⟩
  · rw [collide_at_left]
    obtain ⟨h1, h2, _⟩ := leftQuery_full (clearVert st i) i x y w h lvl
      (fun hcc => hc ((leftCacheHit_clearVert st i x y).mp hcc)) hg
    exact ⟨h1, h2⟩
  · rw [collide_at_right]
    obtain ⟨h1, h2, _⟩ := rightQuery_full (clearVert st i) i x y w h lvl
      (fun hcc => hc ((rightCacheHit_clearVert st i x y).mp hcc)) hg
    exact ⟨h1, h2⟩

/-- Witness for C2 (amended): a concrete UP query at `(32, 16)` on the
test grid satisfies the hypotheses and reads offsets `[2, 2]`. -/
theorem C2_amended_witness :
    ¬ upCacheHit initialCache 0 32 16 ∧
    (SGP_PlayerLevelCollision initialCache 0 32 16 16 16 testLevel SGP_DIR_UP).reads
        = [2, 2] :=
  ⟨by decide,
   ((C2_amended initialCache 0 32 16 16 16 testLevel).1 (by decide) (by decide)).1.trans
     (by decide)⟩

/-- Claim C3 (counterexample): after a DOWN query at `(0, 0)` stored a
collision, a DOWN query at `(32, 0)` — same `y`, different `x` —
short-circuits to true without reading any tile, although the cached
`prev_player_x` is 0, not 32, and a query from a fresh cache at
`(32, 0)` computes false from the tile data. -/
theorem C3_counterexample :
    (SGP_PlayerLevelCollision
        (SGP_PlayerLevelCollision initialCache 0 0 0 16 16 testLevel SGP_DIR_DOWN).cache
        0 32 0 16 16 testLevel SGP_DIR_DOWN).result = true ∧
    (SGP_PlayerLevelCollision
        (SGP_PlayerLevelCollision initialCache 0 0 0 16 16 testLevel SGP_DIR_DOWN).cache
        0 32 0 16 16 testLevel SGP_DIR_DOWN).reads = [] ∧
    ¬ (((SGP_PlayerLevelCollision initialCache 0 0 0 16 16 testLevel
          SGP_DIR_DOWN).cache.prev_player_x 0 : Int) = 32) ∧
    (SGP_PlayerLevelCollision initialCache 0 32 0 16 16 testLevel SGP_DIR_DOWN).result
        = false := by decide

/-- Claim C3 (amended): a query returns true immediately with no tile
read exactly when the cache condition of its branch holds — for UP, LEFT
and RIGHT that condition compares both cached coordinates with the
current ones and tests the exact direction flag, but for DOWN the
alignment guard is evaluated first and the cache condition compares only
the cached y coordinate (the cached x is ignored). -/
theorem C3_amended (st : CollisionCache) (i : Fin SGP_MAX_ENTITIES) (x y : Int)
    (w h : Nat) (lvl : SGPLevelCollisionData) :
    (((SGP_PlayerLevelCollision st i x y w h lvl SGP_DIR_UP).result = true ∧
      (SGP_PlayerLevelCollision st i x y w h lvl SGP_DIR_UP).reads = []) ↔
        upCacheHit st i x y) ∧
    (((SGP_PlayerLevelCollision st i x y w h lvl SGP_DIR_DOWN).result = true ∧
      (SGP_PlayerLevelCollision st i x y w h lvl SGP_DIR_DOWN).reads = []) ↔
        (alignGuardBit (y + (h : Int)) = 0 ∧ downCacheHit st i y)) ∧
    (((SGP_PlayerLevelCollision st i x y w h lvl SGP_DIR_LEFT).result = true ∧
      (SGP_PlayerLevelCollision st i x y w h lvl SGP_DIR_LEFT).reads = []) ↔
        leftCacheHit st i x y) ∧
    (((SGP_PlayerLevelCollision st i x y w h lvl SGP_DIR_RIGHT).result = true ∧
      (SGP_PlayerLevelCollision st i x y w h lvl SGP_DIR_RIGHT).reads = []) ↔
        rightCacheHit st i x y) := by
  refine ⟨?_, ?_, ?_, ?_⟩
  · rw [collide_at_up]
    exact upQuery_noread_true st i x y w h lvl
  · rw [collide_at_down]
    exact downQuery_noread_true st i x y w h lvl
  · rw [collide_at_left]
    exact (leftQuery_noread_true (clearVert st i) i x y w h lvl).trans
      (leftCacheHit_clearVert st i x y)
  · rw [collide_at_right]
    exact (rightQuery_noread_true (clearVert st i) i x y w h lvl).trans
      (rightCacheHit_clearVert st i x y)

/-- Claim C4 (counterexample): an UP query at `(16, 16)` sets the UP flag;
a LEFT query at the same position then clears it (the horizontal chain is
reached through the `else` that clears both vertical flags), although the
claim says a LEFT query leaves the perpendicular flags unchanged. -/
theorem C4_counterexample :
    ((SGP_PlayerLevelCollision initialCache 0 16 16 16 16 testLevel
        SGP_DIR_UP).cache.prev_collide_flags 0).up = true ∧
    ((SGP_PlayerLevelCollision
        (SGP_PlayerLevelCollision initialCache 0 16 16 16 16 testLevel SGP_DIR_UP).cache
        0 16 16 16 16 testLevel SGP_DIR_LEFT).cache.prev_collide_flags 0).up = false := by
  decide

/-- Claim C4 (amended): UP and DOWN queries leave the horizontal flags
unchanged and clear the opposing vertical flag; LEFT and RIGHT queries
clear the opposing horizontal flag AND both vertical flags (via the
fall-through `else`); every query that reaches the tile checks stores the
computed result in the bit of its own direction; and after a LEFT query,
a RIGHT query at the same position never reports a cached true. -/
theorem C4_amended (st : CollisionCache) (i : Fin SGP_MAX_ENTITIES) (x y : Int)
    (w h : Nat) (lvl : SGPLevelCollisionData) :
    ((((SGP_PlayerLevelCollision st i x y w h lvl SGP_DIR_UP).cache.prev_collide_flags i).left
        = (st.prev_collide_flags i).left) ∧
     (((SGP_PlayerLevelCollision st i x y w h lvl SGP_DIR_UP).cache.prev_collide_flags i).right
        = (st.prev_collide_flags i).right) ∧
     ((SGP_PlayerLevelCollision st i x y w h lvl SGP_DIR_UP).cache.prev_collide_flags i).down
        = false) ∧
    ((((SGP_PlayerLevelCollision st i x y w h lvl SGP_DIR_DOWN).cache.prev_collide_flags i).left
        = (st.prev_collide_flags i).left) ∧
     (((SGP_PlayerLevelCollision st i x y w h lvl SGP_DIR_DOWN).cache.prev_collide_flags i).right
        = (st.prev_collide_flags i).right) ∧
     ((SGP_PlayerLevelCollision st i x y w h lvl SGP_DIR_DOWN).cache.prev_collide_flags i).up
        = false) ∧
    ((((SGP_PlayerLevelCollision st i x y w h lvl SGP_DIR_LEFT).cache.prev_collide_flags i).right
        = false) ∧
     (((SGP_PlayerLevelCollision st i x y w h lvl SGP_DIR_LEFT).cache.prev_collide_flags i).up
        = false) ∧
     ((SGP_PlayerLevelCollision st i x y w h lvl SGP_DIR_LEFT).cache.prev_collide_flags i).down
        = false) ∧
    ((((SGP_PlayerLevelCollision st i x y w h lvl SGP_DIR_RIGHT).cache.prev_collide_flags i).left
        = false) ∧
     (((SGP_PlayerLevelCollision st i x y w h lvl SGP_DIR_RIGHT).cache.prev_collide_flags i).up
        = false) ∧
     ((SGP_PlayerLevelCollision st i x y w h lvl SGP_DIR_RIGHT).cache.prev_collide_flags i).down
        = false) ∧
    (((SGP_PlayerLevelCollision st i x y w h lvl SGP_DIR_UP).reads ≠ [] →
      ((SGP_PlayerLevelCollision st i x y w h lvl SGP_DIR_UP).cache.prev_collide_flags i).up
        = (SGP_PlayerLevelCollision st i x y w h lvl SGP_DIR_UP).result) ∧
     ((SGP_PlayerLevelCollision st i x y w h lvl SGP_DIR_DOWN).reads ≠ [] →
      ((SGP_PlayerLevelCollision st i x y w h lvl SGP_DIR_DOWN).cache.prev_collide_flags i).down
        = (SGP_PlayerLevelCollision st i x y w h lvl SGP_DIR_DOWN).result) ∧
     ((SGP_PlayerLevelCollision st i x y w h lvl SGP_DIR_LEFT).reads ≠ [] →
      ((SGP_PlayerLevelCollision st i x y w h lvl SGP_DIR_LEFT).cache.prev_collide_flags i).left
        = (SGP_PlayerLevelCollision st i x y w h lvl SGP_DIR_LEFT).result) ∧
     ((SGP_PlayerLevelCollision st i x y w h lvl SGP_DIR_RIGHT).reads ≠ [] →
      ((SGP_PlayerLevelCollision st i x y w h lvl SGP_DIR_RIGHT).cache.prev_collide_flags i).right
        = (SGP_PlayerLevelCollision st i x y w h lvl SGP_DIR_RIGHT).result)) ∧
    ¬ ((SGP_PlayerLevelCollision (SGP_PlayerLevelCollision st i x y w h lvl SGP_DIR_LEFT).cache
          i x y w h lvl SGP_DIR_RIGHT).result = true ∧
       (SGP_PlayerLevelCollision (SGP_PlayerLevelCollision st i x y w h lvl SGP_DIR_LEFT).cache
          i x y w h lvl SGP_DIR_RIGHT).reads = []) := by
  refine ⟨?_, ?_, left_flags st i x y w h lvl, right_flags st i x y w h lvl,
    ⟨?_, ?_, ?_, ?_⟩, left_then_right_no_cached_true st i x y w h lvl⟩
  · rw [collide_at_up]
    exact upQuery_pres st i x y w h lvl
  · rw [collide_at_down]
    exact downQuery_pres st i x y w h lvl
  · intro hr
    rw [collide_at_up] at hr ⊢
    exact upQuery_own st i x y w h lvl hr
  · intro hr
    rw [collide_at_down] at hr ⊢
    exact downQuery_own st i x y w h lvl hr
  · intro hr
    rw [collide_at_left] at hr ⊢
    exact leftQuery_own (clearVert st i) i x y w h lvl hr
  · intro hr
    rw [collide_at_right] at hr ⊢
    exact rightQuery_own (clearVert st i) i x y w h lvl hr

/-- Witness for C4 (amended): a concrete LEFT query that reaches the tile
checks has its LEFT flag equal to its result. -/
theorem C4_amended_witness :
    (SGP_PlayerLevelCollision initialCache 0 16 16 16 16 testLevel SGP_DIR_LEFT).reads ≠ [] ∧
    ((SGP_PlayerLevelCollision initialCache 0 16 16 16 16 testLevel
        SGP_DIR_LEFT).cache.prev_collide_flags 0).left
      = (SGP_PlayerLevelCollision initialCache 0 16 16 16 16 testLevel SGP_DIR_LEFT).result :=
  ⟨by decide,
   (C4_amended initialCache 0 16 16 16 16 testLevel).2.2.2.2.1.2.2.1 (by decide)⟩

/-- Claim C5 (counterexample): a LEFT query at `(32, 16)` returns false
(no collision); repeating the identical call returns the same false but
reads the two tile offsets again — the result is not derived from the
cache, which only short-circuits positive results. -/
theorem C5_counterexample :
    (SGP_PlayerLevelCollision initialCache 0 32 16 16 16 testLevel SGP_DIR_LEFT).result
        = false ∧
    (SGP_PlayerLevelCollision
        (SGP_PlayerLevelCollision initialCache 0 32 16 16 16 testLevel SGP_DIR_LEFT).cache
        0 32 16 16 16 testLevel SGP_DIR_LEFT).result = false ∧
    (SGP_PlayerLevelCollision
        (SGP_PlayerLevelCollision initialCache 0 32 16 16 16 testLevel SGP_DIR_LEFT).cache
        0 32 16 16 16 testLevel SGP_DIR_LEFT).reads = [9, 9] := by decide

/-- Claim C5 (amended): two immediately successive calls with identical
arguments and a single direction return the same boolean; when the first
call returned true and the coordinates are non-negative (so that the u16
cache slots store them faithfully), the second call is answered from the
cache with no tile read.  When the first call returned false the second
call re-reads the tile data (see the counterexample). -/
theorem C5_amended (st : CollisionCache) (i : Fin SGP_MAX_ENTITIES) (x y : Int)
    (w h : Nat) (lvl : SGPLevelCollisionData) :
    ((SGP_PlayerLevelCollision st i x y w h lvl SGP_DIR_UP).result =
      (SGP_PlayerLevelCollision (SGP_PlayerLevelCollision st i x y w h lvl SGP_DIR_UP).cache
        i x y w h lvl SGP_DIR_UP).result ∧
     ((SGP_PlayerLevelCollision st i x y w h lvl SGP_DIR_UP).result = true →
      0 ≤ x → x < 65536 → 0 ≤ y → y < 65536 →
      (SGP_PlayerLevelCollision (SGP_PlayerLevelCollision st i x y w h lvl SGP_DIR_UP).cache
        i x y w h lvl SGP_DIR_UP).reads = [])) ∧
    ((SGP_PlayerLevelCollision st i x y w h lvl SGP_DIR_DOWN).result =
      (SGP_PlayerLevelCollision (SGP_PlayerLevelCollision st i x y w h lvl SGP_DIR_DOWN).cache
        i x y w h lvl SGP_DIR_DOWN).result ∧
     ((SGP_PlayerLevelCollision st i x y w h lvl SGP_DIR_DOWN).result = true →
      0 ≤ y → y < 65536 →
      (SGP_PlayerLevelCollision (SGP_PlayerLevelCollision st i x y w h lvl SGP_DIR_DOWN).cache
        i x y w h lvl SGP_DIR_DOWN).reads = [])) ∧
    ((SGP_PlayerLevelCollision st i x y w h lvl SGP_DIR_LEFT).result =
      (SGP_PlayerLevelCollision (SGP_PlayerLevelCollision st i x y w h lvl SGP_DIR_LEFT).cache
        i x y w h lvl SGP_DIR_LEFT).result ∧
     ((SGP_PlayerLevelCollision st i x y w h lvl SGP_DIR_LEFT).result = true →
      0 ≤ x → x < 65536 → 0 ≤ y → y < 65536 →
      (SGP_PlayerLevelCollision (SGP_PlayerLevelCollision st i x y w h lvl SGP_DIR_LEFT).cache
        i x y w h lvl SGP_DIR_LEFT).reads = [])) ∧
    ((SGP_PlayerLevelCollision st i x y w h lvl SGP_DIR_RIGHT).result =
      (SGP_PlayerLevelCollision (SGP_PlayerLevelCollision st i x y w h lvl SGP_DIR_RIGHT).cache
        i x y w h lvl SGP_DIR_RIGHT).result ∧
     ((SGP_PlayerLevelCollision st i x y w h lvl SGP_DIR_RIGHT).result = true →
      0 ≤ x → x < 65536 → 0 ≤ y → y < 65536 →
      (SGP_PlayerLevelCollision (SGP_PlayerLevelCollision st i x y w h lvl SGP_DIR_RIGHT).cache
        i x y w h lvl SGP_DIR_RIGHT).reads = [])) := by
  refine ⟨?_, ?_, left_idem st i x y w h lvl, right_idem st i x y w h lvl⟩
  · simp only [collide_at_up]
    exact up_idem st i x y w h lvl
  · simp only [collide_at_down]
    exact down_idem st i x y w h lvl

/-- Witness for C5 (amended): a LEFT query at `(0, 16)` hits the border
wall (true); the repeated call is answered from the cache with no reads. -/
theorem C5_amended_witness :
    (SGP_PlayerLevelCollision initialCache 0 0 16 16 16 testLevel SGP_DIR_LEFT).result
        = true ∧
    (SGP_PlayerLevelCollision
        (SGP_PlayerLevelCollision initialCache 0 0 16 16 16 testLevel SGP_DIR_LEFT).cache
        0 0 16 16 16 testLevel SGP_DIR_LEFT).reads = [] :=
  ⟨by decide,
   (C5_amended initialCache 0 0 16 16 16 testLevel).2.2.1.2 (by decide)
     (by decide) (by decide) (by decide) (by decide)⟩

/-- Witness for C6: the concrete scenario of the claim — active camera,
4096x2048 map, target `(4095, 2047)`, offset `(160, 112)` — lands at
`(3776, 1824)`, not at the unclamped `(3935, 1935)`. -/
theorem C6_camera_follow_clamp_witness :
    (SGP_CameraFollowTarget ⟨true, 0, 0, 4096, 2048, true⟩ 4095 2047 0 0 false).1.current_x
        = 3776 ∧
    (SGP_CameraFollowTarget ⟨true, 0, 0, 4096, 2048, true⟩ 4095 2047 0 0 false).1.current_y
        = 1824 := by
  have h := C6_camera_follow_clamp ⟨true, 0, 0, 4096, 2048, true⟩ 4095 2047 false
    rfl rfl rfl (by decide) (by decide) (by decide) (by decide)
  exact ⟨h.1.trans (by decide), h.2.trans (by decide)⟩

/-- Claim C7: while the camera is inactive, `SGP_CameraFollowTarget`
returns the state unchanged with no side effects; `SGP_UpdateCameraPosition`
is a no-op while active, and while inactive it stores the position and
emits the scroll effect. -/
theorem C7_activity_gating (s : SGPCameraState) (x y : Nat) (tx ty : Int)
    (sw sh : Nat) (spr : Bool) :
    (s.active = false → SGP_CameraFollowTarget s tx ty sw sh spr = (s, [])) ∧
    (s.active = true → SGP_UpdateCameraPosition s x y = (s, [])) ∧
    (s.active = false → SGP_UpdateCameraPosition s x y
        = ({ s with current_x := x, current_y := y }, [SGPEffect.scrollTo x y])) :=
  ⟨fun hf => follow_inactive s tx ty sw sh spr hf,
   fun ha => update_active s x y ha,
   fun hf => update_inactive s x y hf⟩

/-- Witness for C7: concrete inactive and active states. -/
theorem C7_activity_gating_witness :
    SGP_CameraFollowTarget ⟨false, 5, 6, 4096, 2048, true⟩ 100 100 0 0 false
        = (⟨false, 5, 6, 4096, 2048, true⟩, []) ∧
    SGP_UpdateCameraPosition ⟨true, 5, 6, 4096, 2048, true⟩ 123 456
        = (⟨true, 5, 6, 4096, 2048, true⟩, []) ∧
    SGP_UpdateCameraPosition ⟨false, 5, 6, 4096, 2048, true⟩ 123 456
        = (⟨false, 123, 456, 4096, 2048, true⟩, [SGPEffect.scrollTo 123 456]) :=
  ⟨(C7_activity_gating ⟨false, 5, 6, 4096, 2048, true⟩ 123 456 100 100 0 0 false).1 rfl,
   (C7_activity_gating ⟨true, 5, 6, 4096, 2048, true⟩ 123 456 100 100 0 0 false).2.1 rfl,
   (C7_activity_gating ⟨false, 5, 6, 4096, 2048, true⟩ 123 456 100 100 0 0 false).2.2 rfl⟩

/-- Claim C8 (code behaviour at the failing input): `SGP_CameraInit`
dereferences `map->h` before any null test, so a null map has no defined
result (modelled `none`) instead of returning the failure indicator 0;
for a non-null map it computes the pixel dimensions, activates the
camera, retains `current_x`/`current_y` and returns 1. -/
theorem C8_code_behavior (s : SGPCameraState) (m : SGDKMap) :
    SGP_CameraInit none s = none ∧
    ∃ s2, SGP_CameraInit (some m) s = some (s2, 1) ∧ s2.active = true ∧
      s2.map_width = SGP_MetatilesToPixels m.w ∧
      s2.map_height = SGP_MetatilesToPixels m.h ∧
      s2.current_x = s.current_x ∧ s2.current_y = s.current_y :=
  ⟨rfl, ⟨_, rfl, rfl, rfl, rfl, rfl, rfl⟩⟩

/-- Claim C9 (code behaviour at the failing input): a DOWN query at
`(32, 128)` on the 8x8 grid (64 cells) computes tile row
`(128 + 16) >> 4 = 9` and reads linear offset `2 + 9 * 8 = 74`, beyond
the end of the 64-entry array — there is no index bound check in
`SGP_PlayerLevelCollision`; with the out-of-array memory modelled as
zero bytes the query returns false, where the claim (and the test suite
of the repository) requires the out-of-bounds fallback true. -/
theorem C9_code_behavior :
    (SGP_PlayerLevelCollision initialCache 0 32 128 16 16 testLevel SGP_DIR_DOWN).reads
        = [74, 74] ∧
    ((testLevelData.length : Int) ≤ 74) ∧
    (SGP_PlayerLevelCollision initialCache 0 32 128 16 16 testLevel SGP_DIR_DOWN).result
        = false := by decide

/-- Claim C10: because `!=` binds tighter than `&`, each alignment guard
tests only the low bit of its operand; a non-cache-short-circuited query
whose guarded value is odd returns false with no tile read (for DOWN the
guard even precedes the cache check), and an even guarded value that is
not a multiple of 16 passes the guard and proceeds to the two tile
reads. -/
theorem C10_lowbit_guard (st : CollisionCache) (i : Fin SGP_MAX_ENTITIES) (x y : Int)
    (w h : Nat) (lvl : SGPLevelCollisionData) :
    (¬ upCacheHit st i x y →
      (alignGuardBit y ≠ 0 →
        (SGP_PlayerLevelCollision st i x y w h lvl SGP_DIR_UP).result = false ∧
        (SGP_PlayerLevelCollision st i x y w h lvl SGP_DIR_UP).reads = []) ∧
      (alignGuardBit y = 0 → y % 16 ≠ 0 →
        (SGP_PlayerLevelCollision st i x y w h lvl SGP_DIR_UP).reads.length = 2)) ∧
    (¬ downCacheHit st i y →
      (alignGuardBit (y + (h : Int)) ≠ 0 →
        (SGP_PlayerLevelCollision st i x y w h lvl SGP_DIR_DOWN).result = false ∧
        (SGP_PlayerLevelCollision st i x y w h lvl SGP_DIR_DOWN).reads = []) ∧
      (alignGuardBit (y + (h : Int)) = 0 → (y + (h : Int)) % 16 ≠ 0 →
        (SGP_PlayerLevelCollision st i x y w h lvl SGP_DIR_DOWN).reads.length = 2)) ∧
    (¬ leftCacheHit st i x y →
      (alignGuardBit x ≠ 0 →
        (SGP_PlayerLevelCollision st i x y w h lvl SGP_DIR_LEFT).result = false ∧
        (SGP_PlayerLevelCollision st i x y w h lvl SGP_DIR_LEFT).reads = []) ∧
      (alignGuardBit x = 0 → x % 16 ≠ 0 →
        (SGP_PlayerLevelCollision st i x y w h lvl SGP_DIR_LEFT).reads.length = 2)) ∧
    (¬ rightCacheHit st i x y →
      (alignGuardBit (x + (w : Int)) ≠ 0 →
        (SGP_PlayerLevelCollision st i x y w h lvl SGP_DIR_RIGHT).result = false ∧
        (SGP_PlayerLevelCollision st i x y w h lvl SGP_DIR_RIGHT).reads = []) ∧
      (alignGuardBit (x + (w : Int)) = 0 → (x + (w : Int)) % 16 ≠ 0 →
        (SGP_PlayerLevelCollision st i x y w h lvl SGP_DIR_RIGHT).reads.length = 2)) := by
  refine ⟨fun hc => ⟨fun hg => ?_, fun hg _ => ?_⟩, fun hc => ⟨fun hg => ?_, fun hg _ => ?_⟩,
    fun hc => ⟨fun hg => ?_, fun hg _ => ?_⟩, fun hc => ⟨fun hg => ?_, fun hg _ => ?_⟩⟩
  · rw [collide_at_up]
    exact upQuery_guard st i x y w h lvl hc hg
  · rw [collide_at_up, (upQuery_full st i x y w h lvl hc hg).1]
    rfl
  · rw [collide_at_down]
    exact downQuery_guard st i x y w h lvl hg
  · rw [collide_at_down, (downQuery_full st i x y w h lvl hc hg).1]
    rfl
  · rw [collide_at_left]
    exact leftQuery_guard (clearVert st i) i x y w h lvl
      (fun hcc => hc ((leftCacheHit_clearVert st i x y).mp hcc)) hg
  · rw [collide_at_left,
      (leftQuery_full (clearVert st i) i x y w h lvl
        (fun hcc => hc ((leftCacheHit_clearVert st i x y).mp hcc)) hg).1]
    rfl
  · rw [collide_at_right]
    exact rightQuery_guard (clearVert st i) i x y w h lvl
      (fun hcc => hc ((rightCacheHit_clearVert st i x y).mp hcc)) hg
  · rw [collide_at_right,
      (rightQuery_full (clearVert st i) i x y w h lvl
        (fun hcc => hc ((rightCacheHit_clearVert st i x y).mp hcc)) hg).1]
    rfl

/-- Witness for C10: an UP query at odd `y = 3` returns false with no
reads; at `y = 8` (even, not a multiple of 16) the query performs the two
tile reads. -/
theorem C10_lowbit_guard_witness :
    ((SGP_PlayerLevelCollision initialCache 0 0 3 16 16 testLevel SGP_DIR_UP).result = false ∧
     (SGP_PlayerLevelCollision initialCache 0 0 3 16 16 testLevel SGP_DIR_UP).reads = []) ∧
    (SGP_PlayerLevelCollision initialCache 0 0 8 16 16 testLevel SGP_DIR_UP).reads.length
        = 2 :=
  ⟨((C10_lowbit_guard initialCache 0 0 3 16 16 testLevel).1 (by decide)).1 (by decide),
   ((C10_lowbit_guard initialCache 0 0 8 16 16 testLevel).1 (by decide)).2
     (by decide) (by decide)⟩
